import Mathlib

/-!
Verification of the probe-lab/go-commons HTTP middleware, gRPC server
configuration and small helpers, as a shallow embedding of the Go source.

The embedding models:
* the `ResponseWriter` wrapper (status / written / user recording),
* `WrapResponseWriter`,
* `MiddlewareChain`,
* `MiddlewareLogging` (log level selection and entry emission),
* `MiddlewareAuthentication` (key lookup construction and per-request checks),
* the deferred block of `MiddlewareGZip`,
* `ServerConfig.Validate`,
* `Encode` / `EncodeErr` and the JSON response envelope,
* `ptr.From`.

Handlers interact with a response writer only through its methods, so a
handler is modelled as the list of method calls (`WEvent`) it performs on the
writer it is given.  Go `int` fields are modelled as `Int` (no overflow is
relevant at these sizes); byte counts returned by an underlying `Write` are
non-negative (`Nat`) per the `io.Writer` contract.
-/

namespace GoCommons

/-- Wrapper state, mirroring the Go struct
`ResponseWriter { writer; flusher; status int; written int; user string }`.
The `writer`/`flusher` interface fields carry no observable state of their
own beyond flushability, which lives in `Writer.base` below. -/
structure ResponseWriter where
  status : Int
  written : Int
  user : String
deriving Repr, DecidableEq

/-- Go: `func (w *ResponseWriter) WriteHeader(statusCode int) { w.writer.WriteHeader(statusCode); w.status = statusCode }` -/
def ResponseWriter.writeHeader (w : ResponseWriter) (statusCode : Int) : ResponseWriter :=
  { w with status := statusCode }

/-- Go: `func (w *ResponseWriter) Write(p []byte) (int, error) { n, err := w.writer.Write(p); w.written += n; return n, err }`.
`n` is the byte count reported by the underlying writer, `0 ≤ n ≤ len(p)`. -/
def ResponseWriter.write (w : ResponseWriter) (n : Nat) : ResponseWriter :=
  { w with written := w.written + n }

/-- Go: `func (w *ResponseWriter) GroupedStatus() int { return w.status / 100 * 100 }` -/
def ResponseWriter.groupedStatus (w : ResponseWriter) : Int :=
  w.status / 100 * 100

/-- One method call a handler performs on the response writer it was given.
`Header()`/`Flush()` calls do not change the recorded state and are omitted. -/
inductive WEvent where
  | writeHeader (s : Int)
  | write (n : Nat)
deriving Repr, DecidableEq

def applyEvent (w : ResponseWriter) : WEvent → ResponseWriter
  | .writeHeader s => w.writeHeader s
  | .write n => w.write n

/-- Running a handler (its sequence of writer method calls) on a wrapper. -/
def runEvents (w : ResponseWriter) (es : List WEvent) : ResponseWriter :=
  es.foldl applyEvent w

/-- A raw `http.ResponseWriter` as seen by `WrapResponseWriter`'s two type
assertions: either already a `*ResponseWriter`, or some other writer that
does or does not implement `http.Flusher`. -/
inductive Writer where
  | wrapped (w : ResponseWriter)
  | base (flushable : Bool)
deriving Repr, DecidableEq

/-- Go `WrapResponseWriter`: return an existing wrapper unchanged; otherwise
require `http.Flusher` and build a fresh wrapper with
`status: http.StatusOK (200), written: 0`. -/
def WrapResponseWriter : Writer → Except String ResponseWriter
  | .wrapped w => .ok w
  | .base true => .ok { status := 200, written := 0, user := "" }
  | .base false => .error "ResponseWriter does not implement http.Flusher"

/-- The last `WriteHeader` argument in a call sequence, defaulting to `d`. -/
def lastStatus (d : Int) : List WEvent → Int
  | [] => d
  | .writeHeader s :: es => lastStatus s es
  | .write _ :: es => lastStatus d es

/-- The first `WriteHeader` argument in a call sequence, if any. -/
def firstStatus? : List WEvent → Option Int
  | [] => none
  | .writeHeader s :: _ => some s
  | .write _ :: es => firstStatus? es

/-- Total byte count reported across all `Write` calls of a sequence. -/
def totalWritten : List WEvent → Nat
  | [] => 0
  | .writeHeader _ :: es => totalWritten es
  | .write n :: es => n + totalWritten es

/-- Go `MiddlewareChain`: the loop `for i := len(mws)-1; i >= 0; i-- { next = mws[i](next) }`
visits the middleware list from its last element to its first, rewrapping
`next` at each step.  `H` stands for `http.Handler`; a middleware is a
handler transformer `H → H`. -/
def MiddlewareChain {H : Type} (mws : List (H → H)) : H → H :=
  fun next => mws.reverse.foldl (fun acc m => m acc) next

/-- Nesting a middleware list around a handler in declaration order:
`m1 (m2 (... (mn h)))`, the first-listed middleware outermost. -/
def nestMiddlewares {H : Type} : List (H → H) → H → H
  | [], next => next
  | m :: ms, next => m (nestMiddlewares ms next)

/-- Log severity, one of `slog.LevelInfo/LevelWarn/LevelError`. -/
inductive Level where
  | info
  | warn
  | error
deriving Repr, DecidableEq

/-- Go `MiddlewareLogging`'s switch:
`case 400 <= status && status < 500: warn; case 500 <= status: error; default: info`. -/
def logLevelOf (status : Int) : Level :=
  if 400 ≤ status ∧ status < 500 then .warn
  else if 500 ≤ status then .error
  else .info

/-- One structured access-log record (`logger.Log(ctx, logLevel, "Served", ...)`);
the method/path/time attributes carry no middleware logic and are omitted. -/
structure LogEntry where
  level : Level
  status : Int
  size : Int
  user : String
deriving Repr, DecidableEq

/-- Go `MiddlewareLogging`: wrap the writer (on failure reply 500 to the raw
writer and return without invoking the handler or logging); otherwise run the
handler on the wrapper and emit exactly one log entry whose severity is
`logLevelOf` of the recorded status, carrying status, size (bytes written)
and user.  Result: the outgoing writer and the list of emitted log entries. -/
def MiddlewareLogging (nextEvents : List WEvent) (rw : Writer) :
    Writer × List LogEntry :=
  match WrapResponseWriter rw with
  | .error _ => (rw, [])
  | .ok w0 =>
    let w := runEvents w0 nextEvents
    (.wrapped w,
      [{ level := logLevelOf w.status, status := w.status,
         size := w.written, user := w.user }])

/-- Go struct `ErrResponse { Message string }` with JSON field `message`. -/
structure ErrResponse where
  message : String
deriving Repr, DecidableEq

/-- A Go value passed to `Encode`, as discriminated by its type switch:
a `*ErrResponse`, some other value implementing `error` (whose `Error()`
method returns `msg`), or any non-error value (payload left opaque). -/
inductive GoValue where
  | errResponse (msg : String)
  | errValue (msg : String)
  | other (payload : String)
deriving Repr, DecidableEq

/-- The JSON response envelope `Response[T] { Data T "data"; Error *ErrResponse "error" }`:
exactly two fields, `data` and `error`. -/
structure Response where
  data : Option GoValue
  error : Option ErrResponse
deriving Repr, DecidableEq

/-- Go `Encode`'s type switch: a `*ErrResponse` goes to the envelope's error
field as-is; any other `error` value is wrapped as `ErrResponse{Message: val.Error()}`;
every other value goes to the data field. -/
def Encode : GoValue → Response
  | .errResponse m => { data := none, error := some { message := m } }
  | .errValue m => { data := none, error := some { message := m } }
  | .other p => { data := some (.other p), error := none }

/-- Go `EncodeErr(rw, status, errMsg)`: write `status` and the envelope of
`&ErrResponse{Message: errMsg}`.  Modelled as the pair (status, envelope). -/
def EncodeErr (status : Int) (errMsg : String) : Int × Response :=
  (status, Encode (.errResponse errMsg))

/-- Go constant `ApiKeyHeader = "X-API-Key"`. -/
def ApiKeyHeader : String := "X-API-Key"

/-- A Go map write `m[k] = v`: later writes shadow earlier ones on lookup. -/
def mapInsert (m : String → Option String) (k v : String) : String → Option String :=
  fun x => if x = k then some v else m x

/-- Go `MiddlewareAuthentication`'s construction-time loop
`lookup := make(map[string]string, len(keys)); for i, key := range keys { lookup[key] = users[i] }`,
pairing `keys[i]` with `users[i]`. -/
def buildLookup (keys users : List String) : String → Option String :=
  (keys.zip users).foldl (fun m p => mapInsert m p.1 p.2) (fun _ => none)

/-- The association at the greatest index: the value paired with the last
occurrence of `k` in the zipped key/user list. -/
def lastAssoc (keys users : List String) (k : String) : Option String :=
  ((keys.zip users).reverse.find? (fun p => p.1 = k)).map Prod.snd

/-- Outcome of the authentication middleware for one request: a rejection
written through `EncodeErr` (status and envelope), a 500 reply when the
writer cannot be wrapped, or the final wrapper state after the inner handler
ran. -/
inductive AuthOutcome where
  | reject (statusAndBody : Int × Response)
  | configError (status : Int)
  | ok (w : ResponseWriter)
deriving Repr, DecidableEq

/-- Go `MiddlewareAuthentication`'s per-request function.  `apiKey` is
`req.Header.Get(ApiKeyHeader)` (the empty string when the header is absent).
Go's `%q` verb is modelled as plain double-quoting, exact for keys without
escape-needing characters.  The second component lists the wrapper states the
inner handler was invoked on (empty = handler not invoked). -/
def MiddlewareAuthentication (keys users : List String)
    (nextEvents : List WEvent) (apiKey : String) (rw : Writer) :
    AuthOutcome × List ResponseWriter :=
  let lookup := buildLookup keys users
  if apiKey = "" then
    (.reject (EncodeErr 401 ("please set the " ++ ApiKeyHeader ++ " header")), [])
  else
    match lookup apiKey with
    | none =>
      (.reject (EncodeErr 401 ("unrecognized API key \"" ++ apiKey ++ "\"")), [])
    | some user =>
      match WrapResponseWriter rw with
      | .error _ => (.configError 500, [])
      | .ok w =>
        let w1 := { w with user := user }
        (.ok (runEvents w1 nextEvents), [w1])

/-- Result of `MiddlewareGZip`'s deferred block, which runs after the inner
handler returns:
`if wrapped.written < 0 { gzw.Reset(io.Discard) }` (suppress the gzip footer)
and `if wrapped.written > -1 { Header().Set("Content-Length", itoa(wrapped.written)) }`. -/
structure GzipDeferredResult where
  resetToDiscard : Bool
  contentLength : Option Int
deriving Repr, DecidableEq

def gzipDeferred (written : Int) : GzipDeferredResult :=
  { resetToDiscard := decide (written < 0),
    contentLength := if written > -1 then some written else none }

/-- Observable outcome of `MiddlewareGZip` on one request: compression
bypassed (client does not accept gzip, or upgrade request), or handled with
the final byte count of the wrapper and the deferred block's effects. -/
inductive GzipOutcome where
  | bypassed
  | handled (finalWritten : Int) (deferred : GzipDeferredResult)
deriving Repr, DecidableEq

/-- Go `MiddlewareGZip`'s per-request function.  `acceptsGzip` models
`strings.Contains(r.Header.Get("Accept-Encoding"), "gzip")` and `isUpgrade`
models the `Connection: upgrade` check.  On the compression path the gzip
writer targets the raw writer and `WrapResponseWriter` is applied to the
fresh `gzipResponseWriter` — never already a `*ResponseWriter`, and it
implements `Flush` — so the wrap always yields a fresh wrapper with
`status 200, written 0`; the handler then runs against that wrapper and the
deferred block fires on its final `written` count. -/
def MiddlewareGZip (acceptsGzip isUpgrade : Bool)
    (nextEvents : List WEvent) : GzipOutcome :=
  if !acceptsGzip then .bypassed
  else if isUpgrade then .bypassed
  else
    let wrapped := runEvents { status := 200, written := 0, user := "" } nextEvents
    .handled wrapped.written (gzipDeferred wrapped.written)

/-- Go struct `ServerConfig` (src/grpc/server.go).  `Listener : Bool` models
whether the `Listener net.Listener` field is non-nil; `LogOpts` plays no role
in validation and is omitted. -/
structure ServerConfig where
  Listener : Bool
  Host : String
  Port : Int
deriving Repr, DecidableEq

/-- Go `(cfg *ServerConfig) Validate()` on a non-nil config: with a listener,
reject a non-empty host, then a nonzero port; without one, reject an empty
host, then a negative port; otherwise accept.  `some msg` models a returned
error, `none` models `nil`. -/
def ServerConfig.Validate (cfg : ServerConfig) : Option String :=
  if cfg.Listener then
    if cfg.Host ≠ "" then some "listener and host cannot both be set"
    else if cfg.Port ≠ 0 then some "listener and port cannot both be set"
    else none
  else
    if cfg.Host = "" then some "no listener provided and host is empty"
    else if cfg.Port < 0 then some "no listener provided and port is negative"
    else none

namespace ptr

/-- Go `func From[T comparable](t T) *T { if t == *new(T) { return nil }; return &t }`.
`zero` stands for `*new(T)`, the zero value of `T`; `none` models the nil
pointer and `some t` a pointer to (a copy of) `t`. -/
def From {T : Type} [DecidableEq T] (zero t : T) : Option T :=
  if t = zero then none else some t

end ptr

/-! ## Theorems -/

theorem runEvents_eq (es : List WEvent) (w : ResponseWriter) :
    runEvents w es =
      { status := lastStatus w.status es,
        written := w.written + totalWritten es,
        user := w.user } := by
  induction es generalizing w with
  | nil => simp [runEvents, lastStatus, totalWritten]
  | cons e es ih =>
    cases e with
    | writeHeader s =>
      simp only [runEvents, List.foldl_cons, applyEvent] at *
      rw [ih]
      simp [ResponseWriter.writeHeader, lastStatus, totalWritten]
    | write n =>
      simp only [runEvents, List.foldl_cons, applyEvent] at *
      rw [ih]
      simp [ResponseWriter.write, lastStatus, totalWritten]
      ring

/-- C1 (counterexample): a handler that calls `WriteHeader(201)` and then
`WriteHeader(404)` has first status code 201, yet the wrapper records 404:
the recorded status is not the first status code set. -/
theorem c1_first_status_counterexample :
    firstStatus? [WEvent.writeHeader 201, WEvent.writeHeader 404] = some 201 ∧
    (runEvents { status := 200, written := 0, user := "" }
        [WEvent.writeHeader 201, WEvent.writeHeader 404]).status = 404 := by
  constructor
  · rfl
  · rfl

/-- C1 (amended): for a fresh wrapper (status 200, zero bytes), after a
handler performs any sequence of `WriteHeader`/`Write` calls, the recorded
status is the LAST status code set (200 when `WriteHeader` was never called),
and the recorded byte count is the accumulated total over all `Write` calls. -/
theorem c1_wrapper_records_last_status_and_total_bytes (es : List WEvent) :
    (runEvents { status := 200, written := 0, user := "" } es).status
        = lastStatus 200 es ∧
    (runEvents { status := 200, written := 0, user := "" } es).written
        = totalWritten es := by
  rw [runEvents_eq]
  exact ⟨rfl, by simp⟩

/-- C9: `WrapResponseWriter` is idempotent: on an already-wrapped writer it
returns that same wrapper unchanged; on any other writer it succeeds exactly
when the writer supports flushing, yielding a fresh wrapper with status 200
and zero bytes written, and returns an error otherwise. -/
theorem c9_wrap_response_writer_idempotent :
    (∀ w : ResponseWriter, WrapResponseWriter (.wrapped w) = .ok w) ∧
    WrapResponseWriter (.base true) = .ok { status := 200, written := 0, user := "" } ∧
    (∃ msg, WrapResponseWriter (.base false) = .error msg) := by
  refine ⟨fun w => rfl, rfl, ?_⟩
  exact ⟨"ResponseWriter does not implement http.Flusher", rfl⟩

/-- C3: `MiddlewareChain m1 ... mn` applied to a handler `h` is exactly the
nesting `m1 (m2 (... (mn h)))` — the first-listed middleware is outermost —
and the empty chain is the identity on handlers. -/
theorem c3_chain_is_declaration_order_nesting {H : Type}
    (mws : List (H → H)) (next : H) :
    MiddlewareChain mws next = nestMiddlewares mws next ∧
    MiddlewareChain ([] : List (H → H)) next = next := by
  refine ⟨?_, rfl⟩
  induction mws with
  | nil => rfl
  | cons m ms ih =>
    simp only [MiddlewareChain, List.reverse_cons, List.foldl_append,
      List.foldl_cons, List.foldl_nil] at *
    rw [ih]
    rfl

/-- C4: whenever the writer can be wrapped, the access-logging middleware
emits exactly one log entry per request, carrying the recorded status, and
its severity is info for statuses 200–399, warn for 400–499, and error for
every status ≥ 500. -/
theorem c4_one_log_entry_with_status_severity
    (nextEvents : List WEvent) (rw : Writer) (w0 : ResponseWriter)
    (h : WrapResponseWriter rw = .ok w0) :
    ∃ e : LogEntry,
      (MiddlewareLogging nextEvents rw).2 = [e] ∧
      e.status = (runEvents w0 nextEvents).status ∧
      (200 ≤ e.status → e.status < 400 → e.level = .info) ∧
      (400 ≤ e.status → e.status < 500 → e.level = .warn) ∧
      (500 ≤ e.status → e.level = .error) := by
  refine ⟨{ level := logLevelOf (runEvents w0 nextEvents).status,
            status := (runEvents w0 nextEvents).status,
            size := (runEvents w0 nextEvents).written,
            user := (runEvents w0 nextEvents).user }, ?_, rfl, ?_, ?_, ?_⟩
  · simp [MiddlewareLogging, h]
  · dsimp only
    intro h1 h2
    simp only [logLevelOf]
    rw [if_neg, if_neg]
    · omega
    · omega
  · dsimp only
    intro h1 h2
    simp only [logLevelOf]
    rw [if_pos ⟨h1, h2⟩]
  · dsimp only
    intro h1
    simp only [logLevelOf]
    rw [if_neg, if_pos h1]
    omega

/-- C4 witness: a request whose handler sets status 404 produces exactly one
log entry at warn severity. -/
theorem c4_one_log_entry_with_status_severity_witness :
    ∃ e : LogEntry,
      (MiddlewareLogging [WEvent.writeHeader 404] (.base true)).2 = [e] ∧
      e.status = (runEvents { status := 200, written := 0, user := "" }
        [WEvent.writeHeader 404]).status ∧
      (200 ≤ e.status → e.status < 400 → e.level = .info) ∧
      (400 ≤ e.status → e.status < 500 → e.level = .warn) ∧
      (500 ≤ e.status → e.level = .error) :=
  c4_one_log_entry_with_status_severity [WEvent.writeHeader 404] (.base true) _ rfl

theorem foldl_mapInsert_eq_lastAssoc (l : List (String × String))
    (m0 : String → Option String) (k : String) :
    (l.foldl (fun m p => mapInsert m p.1 p.2) m0) k =
      match l.reverse.find? (fun p => p.1 = k) with
      | some p => some p.2
      | none => m0 k := by
  induction l generalizing m0 with
  | nil => simp
  | cons a t ih =>
    simp only [List.foldl_cons, List.reverse_cons, List.find?_append]
    rw [ih]
    cases hf : t.reverse.find? (fun p => p.1 = k) with
    | some p => simp
    | none =>
      simp only [Option.none_or]
      simp only [List.find?]
      by_cases hk : a.1 = k
      · simp [hk, mapInsert]
      · have : (decide (a.1 = k)) = false := by simp [hk]
        rw [this]
        simp only [mapInsert]
        rw [if_neg]
        intro hx
        exact hk hx.symm

/-- C7: for parallel key/identity lists of equal length, the lookup built at
construction maps every key to the identity at the greatest index at which
that key occurs (last-write-wins), and yields nothing for absent keys. -/
theorem c7_lookup_last_write_wins (keys users : List String)
    (_h : keys.length = users.length) (k : String) :
    buildLookup keys users k = lastAssoc keys users k := by
  unfold buildLookup lastAssoc
  rw [foldl_mapInsert_eq_lastAssoc]
  cases hf : (keys.zip users).reverse.find? (fun p => p.1 = k) <;> simp [hf]

/-- C7 witness: with duplicate key "a" at indices 0 and 2, the lookup returns
the identity at index 2, and the fresh key "c" is absent. -/
theorem c7_lookup_last_write_wins_witness :
    ["a", "b", "a"].length = ["u1", "u2", "u3"].length ∧
    buildLookup ["a", "b", "a"] ["u1", "u2", "u3"] "a" =
      lastAssoc ["a", "b", "a"] ["u1", "u2", "u3"] "a" ∧
    buildLookup ["a", "b", "a"] ["u1", "u2", "u3"] "a" = some "u3" ∧
    buildLookup ["a", "b", "a"] ["u1", "u2", "u3"] "c" = none :=
  ⟨rfl, c7_lookup_last_write_wins ["a", "b", "a"] ["u1", "u2", "u3"] rfl "a",
    by decide, by decide⟩

/-- C5: without an `X-API-Key` header the request is rejected with 401 and a
message naming that header, the handler not invoked; with an unrecognized
key it is rejected with 401 and a message naming the supplied key, the
handler not invoked; with a recognized key the inner handler is invoked
exactly once, on the wrapper whose user field holds the associated identity. -/
theorem c5_authentication_checks (keys users : List String)
    (nextEvents : List WEvent) (apiKey : String) (rw : Writer) :
    (apiKey = "" →
      ∃ pre post,
        MiddlewareAuthentication keys users nextEvents apiKey rw =
          (.reject (401, Encode (.errResponse (pre ++ ApiKeyHeader ++ post))), [])) ∧
    (apiKey ≠ "" → buildLookup keys users apiKey = none →
      ∃ pre post,
        MiddlewareAuthentication keys users nextEvents apiKey rw =
          (.reject (401, Encode (.errResponse (pre ++ apiKey ++ post))), [])) ∧
    (∀ user w0, apiKey ≠ "" → buildLookup keys users apiKey = some user →
      WrapResponseWriter rw = .ok w0 →
      (MiddlewareAuthentication keys users nextEvents apiKey rw).2
          = [{ w0 with user := user }] ∧
      (MiddlewareAuthentication keys users nextEvents apiKey rw).1
          = .ok (runEvents { w0 with user := user } nextEvents)) := by
  refine ⟨?_, ?_, ?_⟩
  · intro hk
    refine ⟨"please set the ", " header", ?_⟩
    simp [MiddlewareAuthentication, EncodeErr, hk]
  · intro hk hl
    refine ⟨"unrecognized API key \"", "\"", ?_⟩
    simp [MiddlewareAuthentication, EncodeErr, hk, hl]
  · intro user w0 hk hl hw
    constructor
    · simp [MiddlewareAuthentication, hk, hl, hw]
    · simp [MiddlewareAuthentication, hk, hl, hw]

/-- C5 witness: with key table {"k1" ↦ "alice"} — the missing-header case
rejects with 401 naming the header, the unknown-key case ("zz") rejects with
401 naming the key, and the recognized-key case invokes the handler on a
wrapper whose user is "alice". -/
theorem c5_authentication_checks_witness :
    (∃ pre post,
      MiddlewareAuthentication ["k1"] ["alice"] [] "" (.base true) =
        (.reject (401, Encode (.errResponse (pre ++ ApiKeyHeader ++ post))), [])) ∧
    (∃ pre post,
      MiddlewareAuthentication ["k1"] ["alice"] [] "zz" (.base true) =
        (.reject (401, Encode (.errResponse (pre ++ "zz" ++ post))), [])) ∧
    (MiddlewareAuthentication ["k1"] ["alice"] [] "k1" (.base true)).2 =
      [{ status := 200, written := 0, user := "alice" }] := by
  refine ⟨(c5_authentication_checks ["k1"] ["alice"] [] "" (.base true)).1 rfl,
    (c5_authentication_checks ["k1"] ["alice"] [] "zz" (.base true)).2.1
      (by decide) (by decide), ?_⟩
  exact ((c5_authentication_checks ["k1"] ["alice"] [] "k1" (.base true)).2.2
    "alice" { status := 200, written := 0, user := "" }
    (by decide) (by decide) rfl).1

/-- C6: `Validate` rejects a config with both a listener and a non-empty
host, a config with both a listener and a nonzero port, and a config with
neither a listener nor a host; it accepts a config with a host, port zero,
and no listener. -/
theorem c6_server_config_validate (cfg : ServerConfig) :
    (cfg.Listener = true → cfg.Host ≠ "" → ∃ msg, cfg.Validate = some msg) ∧
    (cfg.Listener = true → cfg.Port ≠ 0 → ∃ msg, cfg.Validate = some msg) ∧
    (cfg.Listener = false → cfg.Host = "" → ∃ msg, cfg.Validate = some msg) ∧
    (cfg.Listener = false → cfg.Host ≠ "" → cfg.Port = 0 → cfg.Validate = none) := by
  refine ⟨?_, ?_, ?_, ?_⟩
  · intro hl hh
    exact ⟨"listener and host cannot both be set", by simp [ServerConfig.Validate, hl, hh]⟩
  · intro hl hp
    by_cases hh : cfg.Host = ""
    · exact ⟨"listener and port cannot both be set", by simp [ServerConfig.Validate, hl, hh, hp]⟩
    · exact ⟨"listener and host cannot both be set", by simp [ServerConfig.Validate, hl, hh]⟩
  · intro hl hh
    exact ⟨"no listener provided and host is empty", by simp [ServerConfig.Validate, hl, hh]⟩
  · intro hl hh hp
    simp [ServerConfig.Validate, hl, hh, hp]

/-- C6 witness: each of the three rejected shapes yields an error on a
concrete config, and a host with port zero and no listener is accepted. -/
theorem c6_server_config_validate_witness :
    (∃ msg, ServerConfig.Validate { Listener := true, Host := "h", Port := 0 } = some msg) ∧
    (∃ msg, ServerConfig.Validate { Listener := true, Host := "", Port := 8080 } = some msg) ∧
    (∃ msg, ServerConfig.Validate { Listener := false, Host := "", Port := 0 } = some msg) ∧
    ServerConfig.Validate { Listener := false, Host := "h", Port := 0 } = none :=
  ⟨(c6_server_config_validate { Listener := true, Host := "h", Port := 0 }).1
      rfl (by decide),
    (c6_server_config_validate { Listener := true, Host := "", Port := 8080 }).2.1
      rfl (by decide),
    (c6_server_config_validate { Listener := false, Host := "", Port := 0 }).2.2.1
      rfl rfl,
    (c6_server_config_validate { Listener := false, Host := "h", Port := 0 }).2.2.2
      rfl (by decide) rfl⟩

/-- C8: `Encode` routes a `*ErrResponse` to the envelope's error field as-is,
wraps any other error value's message into the error field, and places every
other value in the data field; the envelope always has exactly the fields
`data` and `error`, the error object carrying a `message` field. -/
theorem c8_encode_envelope :
    (∀ m, Encode (.errResponse m) = { data := none, error := some { message := m } }) ∧
    (∀ m, Encode (.errValue m) = { data := none, error := some { message := m } }) ∧
    (∀ p, Encode (.other p) = { data := some (.other p), error := none }) := by
  exact ⟨fun m => rfl, fun m => rfl, fun p => rfl⟩

/-- C2 (code evaluated at the failing input): on the compression path the
wrapper's byte count equals the handler's total (hence is never negative),
the deferred block never resets the gzip writer to `io.Discard`, and
Content-Length is always set — in particular, for a handler that writes zero
body bytes the footer is not suppressed and Content-Length is set to 0,
contrary to the middleware's stated intent. -/
theorem c2_zero_write_footer_not_suppressed :
    MiddlewareGZip true false [] =
      .handled 0 { resetToDiscard := false, contentLength := some 0 } ∧
    ∀ nextEvents, MiddlewareGZip true false nextEvents =
      .handled (totalWritten nextEvents)
        { resetToDiscard := false,
          contentLength := some (totalWritten nextEvents) } := by
  constructor
  · rfl
  · intro nextEvents
    simp only [MiddlewareGZip, Bool.not_true, if_neg, if_pos, runEvents_eq,
      gzipDeferred]
    have hnn : (0 : Int) ≤ (totalWritten nextEvents : Int) := Int.ofNat_nonneg _
    have h1 : decide ((0 : Int) + (totalWritten nextEvents : Int) < 0) = false := by
      simp
    have h2 : ((0 : Int) + (totalWritten nextEvents : Int) > -1) := by omega
    simp only [h1, if_pos h2]
    norm_num

/-- C10: `ptr.From` returns nil exactly on the zero value of `T`, and
otherwise a non-nil pointer to the argument; it never yields a pointer to
the zero value. -/
theorem c10_ptr_from_nil_on_zero {T : Type} [DecidableEq T] (zero t : T) :
    (t = zero → ptr.From zero t = none) ∧
    (t ≠ zero → ptr.From zero t = some t) ∧
    ptr.From zero t ≠ some zero := by
  refine ⟨?_, ?_, ?_⟩
  · intro h
    simp [ptr.From, h]
  · intro h
    simp [ptr.From, h]
  · by_cases h : t = zero
    · simp [ptr.From, h]
    · simp [ptr.From, h]

/-- C10 witness: over the integers (zero value 0), `From 0 = nil`,
`From 3 = pointer to 3`, and `From 3` is not a pointer to 0. -/
theorem c10_ptr_from_nil_on_zero_witness :
    ptr.From (0 : Int) 0 = none ∧
    ptr.From (0 : Int) 3 = some 3 ∧
    ptr.From (0 : Int) 3 ≠ some 0 :=
  ⟨(c10_ptr_from_nil_on_zero 0 0).1 rfl,
    (c10_ptr_from_nil_on_zero 0 3).2.1 (by decide),
    (c10_ptr_from_nil_on_zero 0 3).2.2⟩

end GoCommons
